import Mathlib

/-!
Verification of the Techathon predictive-maintenance pipeline.

The repository's client code (InputForm, Dashboard, ResultsDisplay) is
embedded directly from the JavaScript source.  The server-side pipeline
(Orchestrator and the five stages) is not in the source tree, so those
parts are modelled from the spec (each such definition says so in its
doc comment).  JavaScript numbers are modelled by `JFloat`: a rational
for a finite value, plus the non-finite values NaN and the two
infinities.  All pipeline arithmetic after validation happens on
rationals, so every definition is executable and decidable.
-/

/-- A JavaScript number: either a finite value (modelled as a rational)
or one of the non-finite values NaN, +Infinity, -Infinity. -/
inductive JFloat where
  | fin (q : ℚ)
  | nan
  | inf
  | neginf
deriving DecidableEq, Repr

def JFloat.isFinite : JFloat → Bool
  | .fin _ => true
  | _ => false

def JFloat.toRat : JFloat → ℚ
  | .fin q => q
  | _ => 0

/-- Modelled from the spec: `SensorObservation` invariant — length exactly
24, all values finite; construction fails otherwise.  (The server-side
validation code is not in the source tree.) -/
def validObservation (obs : List JFloat) : Bool :=
  obs.length == 24 && obs.all JFloat.isFinite

/-- Per-model prediction result (spec §3): model id, RUL, failure
probability, and an optional component-probability mapping. -/
structure PredictionResult where
  model_id : String
  rul : ℚ
  failure_probability : ℚ
  component_probs : Option (List (String × ℚ)) := none
deriving DecidableEq, Repr

/-- Ensemble summary (spec §3): average RUL and failure probability over
the models that succeeded, plus the per-model results. -/
structure EnsembleSummary where
  avg_rul : ℚ
  avg_failure_probability : ℚ
  per_model : List (String × PredictionResult)
deriving DecidableEq, Repr

/-- Historical case returned by the SimilarityIndex (spec §3). -/
structure HistoricalCase where
  signature : List ℚ
  component_label : String
  distance : ℚ
deriving DecidableEq, Repr

structure DiagnosisResult where
  probable_component : String
  confidence : ℚ
  anomalies : List String
  reason : Option String
deriving DecidableEq, Repr

inductive RiskLevel where
  | LOW
  | MEDIUM
  | HIGH
deriving DecidableEq, Repr

structure RiskAssessment where
  risk_score : ℚ
  risk_level : RiskLevel
  avg_rul : ℚ
deriving DecidableEq, Repr

inductive MaintenanceWindow where
  | ROUTINE
  | SOON
  | IMMEDIATE
deriving DecidableEq, Repr

structure MaintenanceSchedule where
  maintenance_window : MaintenanceWindow
  recommended_actions : List String
deriving DecidableEq, Repr

structure FinalReport where
  narrative : String
  generated : Bool
deriving DecidableEq, Repr

/-- Shared pipeline state (spec §3): the observation plus one optional
slot per result type. -/
structure PipelineState where
  observation : List JFloat
  ensemble : Option EnsembleSummary := none
  diagnosis : Option DiagnosisResult := none
  risk : Option RiskAssessment := none
  schedule : Option MaintenanceSchedule := none
  report : Option FinalReport := none
deriving DecidableEq, Repr

/-! ## PredictionStage (spec §4.2) -/

/-- Modelled from the spec: PredictionStage.  Each of the three model
calls may independently fail (`none`).  The ensemble RUL and failure
probability are arithmetic means over the models that succeeded; the
stage is fatal (returns an error reason) only when all three fail. -/
def predictionStage (m1 m2 m3 : Option PredictionResult) :
    Except String EnsembleSummary :=
  let ok := [m1, m2, m3].filterMap id
  if ok.isEmpty then
    .error "all models failed"
  else
    .ok { avg_rul := (ok.map PredictionResult.rul).sum / ok.length
          avg_failure_probability :=
            (ok.map PredictionResult.failure_probability).sum / ok.length
          per_model := ok.map fun r => (r.model_id, r) }

/-! ## RiskStage (spec §4.4) -/

/-- Modelled from the spec: risk-score weight w1 (RUL term). -/
def w1 : ℚ := 2/5
/-- Modelled from the spec: risk-score weight w2 (failure probability). -/
def w2 : ℚ := 2/5
/-- Modelled from the spec: risk-score weight w3 (diagnostic confidence). -/
def w3 : ℚ := 1/5

/-- Modelled from the spec: `f`, a normalized inverse of RUL —
monotonically decreasing as RUL grows, valued in (0, 1]. -/
def rulFactor (rul : ℚ) : ℚ := 1 / (1 + max rul 0)

/-- Modelled from the spec: risk score
`w1*f(avg_rul) + w2*avg_failure_probability + w3*(1 - confidence)`. -/
def riskScore (ens : EnsembleSummary) (diag : DiagnosisResult) : ℚ :=
  w1 * rulFactor ens.avg_rul
    + w2 * ens.avg_failure_probability
    + w3 * (1 - diag.confidence)

/-- Modelled from the spec: risk-level cut points —
`score < 0.33 → LOW`, `0.33 ≤ score < 0.66 → MEDIUM`, `score ≥ 0.66 → HIGH`. -/
def riskLevel (score : ℚ) : RiskLevel :=
  if score < 33/100 then .LOW
  else if score < 66/100 then .MEDIUM
  else .HIGH

/-- Modelled from the spec: RiskStage — pure computation combining the
ensemble summary and the diagnosis into a risk assessment. -/
def riskStage (ens : EnsembleSummary) (diag : DiagnosisResult) :
    RiskAssessment :=
  let score := riskScore ens diag
  { risk_score := score, risk_level := riskLevel score, avg_rul := ens.avg_rul }

/-! ## DiagnosisStage (spec §4.3) -/

/-- Modelled from the spec: nominal baseline per sensor channel (static
configuration; the values are the FD001 sample shipped with the client). -/
def nominalBaseline : List ℚ :=
  [-0.0007, -0.0004, 100.0, 518.67, 641.82, 1589.70, 1400.60, 14.62,
   21.61, 554.36, 2388.06, 9046.19, 1.30, 47.47, 521.66, 2388.02,
   8138.62, 8.4195, 0.03, 392, 2388, 100.00, 39.06, 23.4190]

/-- Modelled from the spec: fixed anomaly-detection threshold. -/
def anomalyThreshold : ℚ := 1/10

/-- Modelled from the spec: normalized deviation of a reading from its
nominal baseline value. -/
def normalizedDeviation (x nominal : ℚ) : ℚ := |x - nominal| / (|nominal| + 1)

/-- Modelled from the spec: anomaly descriptors — every channel whose
normalized deviation from the baseline exceeds the threshold. -/
def extractAnomalies (obs : List ℚ) : List String :=
  (obs.zip nominalBaseline).enum.filterMap fun p =>
    if anomalyThreshold < normalizedDeviation p.2.1 p.2.2 then
      some ("sensor " ++ toString p.1 ++ " elevated")
    else none

/-- Modelled from the spec: inverse-distance weight of a historical case
(closer cases count more). -/
def caseWeight (c : HistoricalCase) : ℚ := 1 / (1 + c.distance)

/-- Total inverse-distance vote weight carried by one component label. -/
def voteWeight (label : String) (cases : List HistoricalCase) : ℚ :=
  ((cases.filter fun c => c.component_label == label).map caseWeight).sum

/-- Total distance carried by one component label (used to break ties). -/
def labelDistance (label : String) (cases : List HistoricalCase) : ℚ :=
  ((cases.filter fun c => c.component_label == label).map
    HistoricalCase.distance).sum

def totalWeight (cases : List HistoricalCase) : ℚ :=
  (cases.map caseWeight).sum

def clip01 (q : ℚ) : ℚ := min (max q 0) 1

/-- Modelled from the spec: majority vote over the returned cases' labels,
weighted inversely by distance, ties broken by smallest total distance. -/
def winningLabel (cases : List HistoricalCase) : Option String :=
  match (cases.map HistoricalCase.component_label).dedup with
  | [] => none
  | l :: ls =>
    some <| ls.foldl
      (fun best cand =>
        if voteWeight best cases < voteWeight cand cases ∨
            (voteWeight cand cases = voteWeight best cases ∧
              labelDistance cand cases < labelDistance best cases)
        then cand else best) l

/-- First non-empty `component_probs` mapping exposed by a model of the
ensemble (FD003-style), if any. -/
def ensembleComponentProbs (ens : EnsembleSummary) :
    Option (List (String × ℚ)) :=
  (((ens.per_model.map fun p => p.2.component_probs).filterMap id).filter
    fun l => !l.isEmpty).head?

/-- Most probable entry of a component-probability mapping. -/
def mostProbable (probs : List (String × ℚ)) : Option (String × ℚ) :=
  match probs with
  | [] => none
  | p :: ps => some <| ps.foldl (fun best c => if best.2 < c.2 then c else best) p

/-- Modelled from the spec: DiagnosisStage.  Extracts anomalies, runs the
distance-weighted vote over the similarity cases; on zero cases falls
back to the ensemble's `component_probs` if available, else the sentinel
"General" with confidence 0.  Never fatal. -/
def diagnosisStage (obs : List ℚ) (ens : EnsembleSummary)
    (cases : List HistoricalCase) (llmReason : Option String) :
    DiagnosisResult :=
  let anomalies := extractAnomalies obs
  if cases.isEmpty then
    match ensembleComponentProbs ens with
    | some probs =>
      match mostProbable probs with
      | some lp =>
        { probable_component := lp.1, confidence := clip01 lp.2
          anomalies := anomalies, reason := llmReason }
      | none =>
        { probable_component := "General", confidence := 0
          anomalies := anomalies, reason := llmReason }
    | none =>
      { probable_component := "General", confidence := 0
        anomalies := anomalies, reason := llmReason }
  else
    match winningLabel cases with
    | some label =>
      { probable_component := label
        confidence := clip01 (voteWeight label cases / totalWeight cases)
        anomalies := anomalies, reason := llmReason }
    | none =>
      { probable_component := "General", confidence := 0
        anomalies := anomalies, reason := llmReason }

/-! ## SchedulingStage (spec §4.5) -/

def maintenanceWindowFor : RiskLevel → MaintenanceWindow
  | .HIGH => .IMMEDIATE
  | .MEDIUM => .SOON
  | .LOW => .ROUTINE

/-- Modelled from the spec: generic fallback actions used when the
component is not in the rule table. -/
def genericActions : RiskLevel → List String
  | .HIGH => ["Perform immediate general inspection", "Review all sensor trends"]
  | .MEDIUM => ["Schedule general maintenance at next opportunity"]
  | .LOW => ["Continue routine monitoring"]

/-- Modelled from the spec: the fixed rule table keyed by
(risk_level, probable_component). -/
def actionTable (level : RiskLevel) (component : String) :
    Option (List String) :=
  match level, component with
  | .HIGH, "HPC Degradation" =>
    some ["Ground engine for inspection", "Inspect high-pressure compressor blades"]
  | .HIGH, "Fan Degradation" =>
    some ["Ground engine for inspection", "Inspect fan assembly"]
  | .MEDIUM, "HPC Degradation" =>
    some ["Schedule HPC borescope inspection"]
  | .MEDIUM, "Fan Degradation" =>
    some ["Schedule fan vibration analysis"]
  | .LOW, "Healthy" =>
    some ["Continue routine monitoring"]
  | _, _ => none

/-- Modelled from the spec: SchedulingStage — deterministic window mapping
plus action lookup with generic fallback.  Pure, total. -/
def schedulingStage (ra : RiskAssessment) (component : String) :
    MaintenanceSchedule :=
  { maintenance_window := maintenanceWindowFor ra.risk_level
    recommended_actions :=
      (actionTable ra.risk_level component).getD (genericActions ra.risk_level) }

/-! ## ExplanationStage (spec §4.6) -/

def RiskLevel.label : RiskLevel → String
  | .LOW => "LOW"
  | .MEDIUM => "MEDIUM"
  | .HIGH => "HIGH"

def MaintenanceWindow.label : MaintenanceWindow → String
  | .ROUTINE => "ROUTINE"
  | .SOON => "SOON"
  | .IMMEDIATE => "IMMEDIATE"

/-- Modelled from the spec: deterministic templated narrative built by
string-filling the structured fields (the fallback path). -/
def fallbackNarrative (ens : EnsembleSummary) (diag : DiagnosisResult)
    (risk : RiskAssessment) (sched : MaintenanceSchedule) : String :=
  "Engine health report. Average RUL: " ++ toString ens.avg_rul
    ++ " cycles. Probable component: " ++ diag.probable_component
    ++ ". Risk level: " ++ risk.risk_level.label
    ++ ". Maintenance window: " ++ sched.maintenance_window.label ++ "."

/-- Modelled from the spec: ExplanationStage — one initial attempt plus
one bounded retry against NarrativeGenerator (each outcome is `none` on
failure/timeout), then the template fallback.  Never fatal. -/
def explanationStage (attempt1 attempt2 : Option String)
    (ens : EnsembleSummary) (diag : DiagnosisResult)
    (risk : RiskAssessment) (sched : MaintenanceSchedule) : FinalReport :=
  match attempt1 with
  | some n => { narrative := n, generated := true }
  | none =>
    match attempt2 with
    | some n => { narrative := n, generated := true }
    | none =>
      { narrative := fallbackNarrative ens diag risk sched, generated := false }

/-! ## Orchestrator (spec §4.1) -/

/-- Outcomes of the external collaborators for one pipeline run (injected
dependencies; `none` models a failed or timed-out call). -/
structure Collaborators where
  model1 : Option PredictionResult
  model2 : Option PredictionResult
  model3 : Option PredictionResult
  simCases : List HistoricalCase
  diagReason : Option String
  narrative1 : Option String
  narrative2 : Option String
deriving Repr

/-- Result of a pipeline run: success with the fully populated state, a
validation error (no state produced), or a fatal error carrying the
recorded reason together with the accumulated state. -/
inductive PipelineOutcome where
  | ok (state : PipelineState)
  | validationError (msg : String)
  | fatal (reason : String) (accumulated : PipelineState)
deriving DecidableEq, Repr

/-- Modelled from the spec: `Orchestrator.run` — validates the
observation, then runs the five stages in fixed order; a fatal stage
failure aborts with the accumulated state, non-fatal failures are
absorbed by stage-local fallbacks. -/
def Orchestrator.run (env : Collaborators) (obs : List JFloat) :
    PipelineOutcome :=
  if validObservation obs then
    let st0 : PipelineState := { observation := obs }
    match predictionStage env.model1 env.model2 env.model3 with
    | .error reason => .fatal reason st0
    | .ok ens =>
      let vals := obs.map JFloat.toRat
      let diag := diagnosisStage vals ens env.simCases env.diagReason
      let risk := riskStage ens diag
      let sched := schedulingStage risk diag.probable_component
      let rep := explanationStage env.narrative1 env.narrative2 ens diag risk sched
      .ok { observation := obs, ensemble := some ens, diagnosis := some diag,
            risk := some risk, schedule := some sched, report := some rep }
  else
    .validationError "Invalid observation: expected exactly 24 finite values"

/-! ## Client embeddings (ResultsDisplay.jsx, Dashboard) -/

/-- Case-insensitive "starts with", embedding the anchored `/^p/i` regex
tests of `componentLabel` (ASCII patterns, so lowercasing both sides is
exact). -/
def ciStartsWith (v p : String) : Bool :=
  List.isPrefixOf (p.toList.map Char.toLower) (v.toList.map Char.toLower)

/-- `componentLabel` from `ResultsDisplay.jsx`: `none` models a `null` or
`undefined` value; for any other value `v` is `String(value).trim()`. -/
def componentLabel (value : Option String) : String :=
  match value with
  | none => "Unknown"
  | some s =>
    let v := s.trim
    if v = "0" then "Healthy"
    else if v = "1" then "HPC Degradation"
    else if v = "2" then "Fan Degradation"
    else if ciStartsWith v "Healthy" then "Healthy"
    else if ciStartsWith v "HPC" then "HPC Degradation"
    else if ciStartsWith v "Fan" then "Fan Degradation"
    else v

/-- The normalization described by the spec claim for `componentLabel`,
grouping the exact-digit and prefix tests per target label (refinement
reference for comparison with the source definition). -/
def componentLabelClaim (value : Option String) : String :=
  match value with
  | none => "Unknown"
  | some s =>
    let v := s.trim
    if v = "0" ∨ ciStartsWith v "Healthy" then "Healthy"
    else if v = "1" ∨ ciStartsWith v "HPC" then "HPC Degradation"
    else if v = "2" ∨ ciStartsWith v "Fan" then "Fan Degradation"
    else v

/-- Dashboard component state (`results`, `loading`, `error` hooks),
parametric in the shape of the server response data. -/
structure DashboardState (α : Type) where
  results : Option α
  loading : Bool
  error : Option String
deriving DecidableEq, Repr

/-- JavaScript `a || b` on an optional string (`undefined` and `""` are
falsy), as in `err.response?.data?.error || "Failed to connect..."`. -/
def jsOrString (a : Option String) (b : String) : String :=
  match a with
  | some s => if s = "" then b else s
  | none => b

/-- The synchronous prefix of `handleAnalyze` in `Dashboard`: set loading,
clear the previous error and the previous results. -/
def handleAnalyzeStart {α : Type} (st : DashboardState α) : DashboardState α :=
  { st with loading := true, error := none, results := none }

/-- The continuation of `handleAnalyze` once the request settles: on
success store the response data, on failure store the server-provided
error message or the fallback text; `finally` clears loading. -/
def handleAnalyzeFinish {α : Type} (st : DashboardState α)
    (outcome : Except (Option String) α) : DashboardState α :=
  match outcome with
  | .ok data => { st with results := some data, loading := false }
  | .error serverMsg =>
    { st with error := some (jsOrString serverMsg "Failed to connect to the server.")
              loading := false }

/-- `handleAnalyze` from `Dashboard`, as a function of the request
outcome (`.ok` the response data, `.error` the optional server message). -/
def handleAnalyze {α : Type} (st : DashboardState α)
    (outcome : Except (Option String) α) : DashboardState α :=
  handleAnalyzeFinish (handleAnalyzeStart st) outcome

/-! ## Theorems -/

/-- A string with a non-empty left component of an append is non-empty. -/
theorem string_append_ne_empty_left (a b : String) (h : a ≠ "") :
    a ++ b ≠ "" := by
  intro hc
  apply h
  cases a with
  | mk da =>
    cases b with
    | mk db =>
      have hd : da ++ db = ([] : List Char) := congrArg String.data hc
      have hda : da = [] := (List.append_eq_nil.mp hd).1
      subst hda
      rfl

/-- The fallback template always yields non-empty text. -/
theorem fallbackNarrative_ne_empty (ens : EnsembleSummary)
    (diag : DiagnosisResult) (risk : RiskAssessment)
    (sched : MaintenanceSchedule) :
    fallbackNarrative ens diag risk sched ≠ "" := by
  unfold fallbackNarrative
  apply string_append_ne_empty_left
  apply string_append_ne_empty_left
  apply string_append_ne_empty_left
  apply string_append_ne_empty_left
  apply string_append_ne_empty_left
  apply string_append_ne_empty_left
  apply string_append_ne_empty_left
  apply string_append_ne_empty_left
  decide

/-- C4: `riskLevel` uses exact closed-open intervals: below 0.33 is LOW,
from 0.33 up to (excluding) 0.66 is MEDIUM, from 0.66 up is HIGH; in
particular exactly 0.33 maps to MEDIUM and exactly 0.66 to HIGH. -/
theorem riskLevel_thresholds (s : ℚ) :
    (s < 33/100 → riskLevel s = .LOW) ∧
    (33/100 ≤ s → s < 66/100 → riskLevel s = .MEDIUM) ∧
    (66/100 ≤ s → riskLevel s = .HIGH) ∧
    riskLevel (33/100) = .MEDIUM ∧ riskLevel (66/100) = .HIGH := by
  refine ⟨fun h => by simp [riskLevel, h], fun h1 h2 => ?_, fun h => ?_,
    ?_, ?_⟩
  · rw [riskLevel, if_neg (not_lt.mpr h1), if_pos h2]
  · rw [riskLevel, if_neg (not_lt.mpr (by linarith)),
      if_neg (not_lt.mpr (by linarith))]
  · rw [riskLevel, if_neg (by norm_num), if_pos (by norm_num)]
  · rw [riskLevel, if_neg (by norm_num), if_neg (by norm_num)]

theorem riskLevel_thresholds_witness :
    riskLevel (20/100) = .LOW ∧ riskLevel (50/100) = .MEDIUM ∧
    riskLevel (80/100) = .HIGH :=
  ⟨(riskLevel_thresholds (20/100)).1 (by norm_num),
   (riskLevel_thresholds (50/100)).2.1 (by norm_num) (by norm_num),
   (riskLevel_thresholds (80/100)).2.2.1 (by norm_num)⟩

/-- C5: holding `avg_rul` and the diagnosis fixed, `riskScore` is
monotonically non-decreasing in `avg_failure_probability`. -/
theorem riskScore_monotone_in_failure_probability
    (e1 e2 : EnsembleSummary) (d : DiagnosisResult)
    (hrul : e1.avg_rul = e2.avg_rul)
    (hp : e1.avg_failure_probability ≤ e2.avg_failure_probability) :
    riskScore e1 d ≤ riskScore e2 d := by
  unfold riskScore
  rw [hrul]
  have hw : (0 : ℚ) ≤ w2 := by norm_num [w2]
  have := mul_le_mul_of_nonneg_left hp hw
  linarith

theorem riskScore_monotone_in_failure_probability_witness :
    riskScore ⟨50, 1/10, []⟩ ⟨"General", 0, [], none⟩ ≤
      riskScore ⟨50, 9/10, []⟩ ⟨"General", 0, [], none⟩ :=
  riskScore_monotone_in_failure_probability
    ⟨50, 1/10, []⟩ ⟨50, 9/10, []⟩ ⟨"General", 0, [], none⟩ rfl (by norm_num)

/-- C8: SchedulingStage is pure and total; the maintenance window is
exactly IMMEDIATE for HIGH, SOON for MEDIUM, ROUTINE for LOW, and the
recommended actions come from the rule table keyed by
(risk level, component), falling back to the generic actions when the
component is not in the table. -/
theorem schedulingStage_deterministic (ra : RiskAssessment) (comp : String) :
    (ra.risk_level = .HIGH →
      (schedulingStage ra comp).maintenance_window = .IMMEDIATE) ∧
    (ra.risk_level = .MEDIUM →
      (schedulingStage ra comp).maintenance_window = .SOON) ∧
    (ra.risk_level = .LOW →
      (schedulingStage ra comp).maintenance_window = .ROUTINE) ∧
    (actionTable ra.risk_level comp = none →
      (schedulingStage ra comp).recommended_actions =
        genericActions ra.risk_level) ∧
    (∀ acts, actionTable ra.risk_level comp = some acts →
      (schedulingStage ra comp).recommended_actions = acts) := by
  refine ⟨fun h => ?_, fun h => ?_, fun h => ?_, fun h => ?_, fun acts h => ?_⟩
  · simp [schedulingStage, h, maintenanceWindowFor]
  · simp [schedulingStage, h, maintenanceWindowFor]
  · simp [schedulingStage, h, maintenanceWindowFor]
  · simp [schedulingStage, h]
  · simp [schedulingStage, h]

theorem schedulingStage_deterministic_witness :
    (schedulingStage ⟨7/10, .HIGH, 20⟩ "Unknown Part").maintenance_window
      = .IMMEDIATE ∧
    (schedulingStage ⟨7/10, .HIGH, 20⟩ "Unknown Part").recommended_actions
      = genericActions .HIGH ∧
    (schedulingStage ⟨5/10, .MEDIUM, 80⟩ "HPC Degradation").recommended_actions
      = ["Schedule HPC borescope inspection"] :=
  ⟨(schedulingStage_deterministic ⟨7/10, .HIGH, 20⟩ "Unknown Part").1 rfl,
   (schedulingStage_deterministic ⟨7/10, .HIGH, 20⟩ "Unknown Part").2.2.2.1
     (by decide),
   (schedulingStage_deterministic ⟨5/10, .MEDIUM, 80⟩
     "HPC Degradation").2.2.2.2 _ (by decide)⟩

/-- C7: if both NarrativeGenerator attempts fail, ExplanationStage
produces the deterministic template fallback: `generated` is false and
the narrative is non-empty; the stage is total (never fatal). -/
theorem explanationStage_fallback (a1 a2 : Option String)
    (ens : EnsembleSummary) (diag : DiagnosisResult)
    (risk : RiskAssessment) (sched : MaintenanceSchedule)
    (h1 : a1 = none) (h2 : a2 = none) :
    (explanationStage a1 a2 ens diag risk sched).generated = false ∧
    (explanationStage a1 a2 ens diag risk sched).narrative ≠ "" := by
  subst h1; subst h2
  exact ⟨rfl, fallbackNarrative_ne_empty ens diag risk sched⟩

theorem explanationStage_fallback_witness :
    (explanationStage none none ⟨50, 1/10, []⟩ ⟨"General", 0, [], none⟩
      ⟨1/5, .LOW, 50⟩ ⟨.ROUTINE, []⟩).generated = false ∧
    (explanationStage none none ⟨50, 1/10, []⟩ ⟨"General", 0, [], none⟩
      ⟨1/5, .LOW, 50⟩ ⟨.ROUTINE, []⟩).narrative ≠ "" :=
  explanationStage_fallback none none ⟨50, 1/10, []⟩ ⟨"General", 0, [], none⟩
    ⟨1/5, .LOW, 50⟩ ⟨.ROUTINE, []⟩ rfl rfl

/-- The only fatal reason PredictionStage ever records. -/
theorem predictionStage_error_reason (m1 m2 m3 : Option PredictionResult)
    (r : String) (h : predictionStage m1 m2 m3 = .error r) :
    r = "all models failed" := by
  simp only [predictionStage] at h
  split at h
  · injection h with h
    exact h.symm
  · simp at h

/-- C3: the ensemble RUL is the arithmetic mean of the models that
succeeded — all three when all succeed, the remaining two when exactly
one fails (the failed model is excluded, not counted as zero); the
per-model results are kept individually; and the stage is fatal exactly
when all three models fail. -/
theorem predictionStage_mean (r1 r2 r3 : PredictionResult) :
    (∃ e, predictionStage (some r1) (some r2) (some r3) = .ok e ∧
        e.avg_rul = (r1.rul + r2.rul + r3.rul) / 3 ∧
        e.per_model = [(r1.model_id, r1), (r2.model_id, r2), (r3.model_id, r3)]) ∧
    (∃ e, predictionStage none (some r2) (some r3) = .ok e ∧
        e.avg_rul = (r2.rul + r3.rul) / 2) ∧
    (∃ e, predictionStage (some r1) none (some r3) = .ok e ∧
        e.avg_rul = (r1.rul + r3.rul) / 2) ∧
    (∃ e, predictionStage (some r1) (some r2) none = .ok e ∧
        e.avg_rul = (r1.rul + r2.rul) / 2) ∧
    (∀ m1 m2 m3 : Option PredictionResult,
      (∃ msg, predictionStage m1 m2 m3 = Except.error msg) ↔
        (m1 = none ∧ m2 = none ∧ m3 = none)) := by
  refine ⟨⟨_, rfl, ?_, rfl⟩, ⟨_, rfl, ?_⟩, ⟨_, rfl, ?_⟩, ⟨_, rfl, ?_⟩, ?_⟩
  · show ([r1, r2, r3].map PredictionResult.rul).sum / ([r1, r2, r3].length : ℚ)
      = (r1.rul + r2.rul + r3.rul) / 3
    simp
    ring
  · show ([r2, r3].map PredictionResult.rul).sum / ([r2, r3].length : ℚ)
      = (r2.rul + r3.rul) / 2
    simp
  · show ([r1, r3].map PredictionResult.rul).sum / ([r1, r3].length : ℚ)
      = (r1.rul + r3.rul) / 2
    simp
  · show ([r1, r2].map PredictionResult.rul).sum / ([r1, r2].length : ℚ)
      = (r1.rul + r2.rul) / 2
    simp
  · intro m1 m2 m3
    cases m1 <;> cases m2 <;> cases m3 <;> simp [predictionStage]

/-- C6 helper: when no model of the ensemble exposes `component_probs`,
there is no FD003-style mapping to fall back on. -/
theorem ensembleComponentProbs_eq_none (ens : EnsembleSummary)
    (hprobs : ∀ p ∈ ens.per_model, p.2.component_probs = none) :
    ensembleComponentProbs ens = none := by
  unfold ensembleComponentProbs
  have : (ens.per_model.map fun p => p.2.component_probs).filterMap id = [] := by
    rw [List.filterMap_map]
    exact List.filterMap_eq_nil_iff.mpr hprobs
  rw [this]
  rfl

/-- C6: with zero similarity cases and no model exposing
`component_probs`, DiagnosisStage yields the sentinel "General" with
confidence 0. -/
theorem diagnosisStage_zero_cases_sentinel (obs : List ℚ)
    (ens : EnsembleSummary) (llmReason : Option String)
    (hprobs : ∀ p ∈ ens.per_model, p.2.component_probs = none) :
    (diagnosisStage obs ens [] llmReason).probable_component = "General" ∧
    (diagnosisStage obs ens [] llmReason).confidence = 0 := by
  have h := ensembleComponentProbs_eq_none ens hprobs
  unfold diagnosisStage
  rw [List.isEmpty_nil, if_pos rfl, h]
  exact ⟨rfl, rfl⟩

theorem diagnosisStage_zero_cases_sentinel_witness :
    (diagnosisStage [] ⟨50, 1/10, [("fd001", ⟨"fd001", 50, 1/10, none⟩)]⟩ []
      none).probable_component = "General" ∧
    (diagnosisStage [] ⟨50, 1/10, [("fd001", ⟨"fd001", 50, 1/10, none⟩)]⟩ []
      none).confidence = 0 :=
  diagnosisStage_zero_cases_sentinel []
    ⟨50, 1/10, [("fd001", ⟨"fd001", 50, 1/10, none⟩)]⟩ none
    (by intro p hp; simp at hp; rw [hp])

/-- C1: a malformed observation — wrong length or a non-finite value —
is rejected before any stage runs: the orchestrator returns a validation
error, which carries no pipeline state (the `validationError`
constructor has no state component), and never a success or a fatal
outcome. -/
theorem run_rejects_malformed (env : Collaborators) (obs : List JFloat)
    (h : obs.length ≠ 24 ∨ ∃ x ∈ obs, x.isFinite = false) :
    Orchestrator.run env obs =
      .validationError "Invalid observation: expected exactly 24 finite values" ∧
    (∀ st, Orchestrator.run env obs ≠ .ok st) ∧
    (∀ reason st, Orchestrator.run env obs ≠ .fatal reason st) := by
  have hv : ¬ (validObservation obs = true) := by
    simp only [validObservation, Bool.and_eq_true, beq_iff_eq,
      List.all_eq_true]
    rintro ⟨hlen, hall⟩
    rcases h with h | ⟨x, hx, hfin⟩
    · exact h hlen
    · have := hall x hx
      rw [hfin] at this
      exact Bool.false_ne_true this
  have heq : Orchestrator.run env obs =
      .validationError "Invalid observation: expected exactly 24 finite values" := by
    unfold Orchestrator.run
    rw [if_neg hv]
  exact ⟨heq, fun st hc => by rw [heq] at hc; exact PipelineOutcome.noConfusion hc,
    fun reason st hc => by rw [heq] at hc; exact PipelineOutcome.noConfusion hc⟩

theorem run_rejects_malformed_witness :
    Orchestrator.run ⟨none, none, none, [], none, none, none⟩ [.fin 1, .nan] =
      .validationError "Invalid observation: expected exactly 24 finite values" :=
  (run_rejects_malformed ⟨none, none, none, [], none, none, none⟩
    [.fin 1, .nan] (Or.inl (by decide))).1

/-- C2: on a valid 24-element observation, the orchestrator either
returns a success whose five result slots are all populated, or a fatal
error whose recorded reason is non-empty — never an incomplete
success. -/
theorem run_populates_all_slots_or_fatal (env : Collaborators)
    (obs : List JFloat) (h : validObservation obs = true) :
    (∃ st, Orchestrator.run env obs = .ok st ∧
        st.ensemble.isSome = true ∧ st.diagnosis.isSome = true ∧
        st.risk.isSome = true ∧ st.schedule.isSome = true ∧
        st.report.isSome = true) ∨
    (∃ reason st, Orchestrator.run env obs = .fatal reason st ∧
        reason ≠ "") := by
  unfold Orchestrator.run
  rw [if_pos h]
  cases hp : predictionStage env.model1 env.model2 env.model3 with
  | error reason =>
    right
    refine ⟨reason, _, rfl, ?_⟩
    rw [predictionStage_error_reason _ _ _ _ hp]
    decide
  | ok ens =>
    left
    exact ⟨_, rfl, rfl, rfl, rfl, rfl, rfl⟩

theorem predictionStage_mean_witness :
    ∃ msg, predictionStage none none none = Except.error msg :=
  ((predictionStage_mean ⟨"fd001", 1, 0, none⟩ ⟨"fd002", 2, 0, none⟩
    ⟨"fd003", 3, 0, none⟩).2.2.2.2 none none none).mpr ⟨rfl, rfl, rfl⟩

theorem run_populates_all_slots_or_fatal_witness :
    (∃ st, Orchestrator.run ⟨none, none, none, [], none, none, none⟩
        (List.replicate 24 (.fin 1)) = .ok st ∧
        st.ensemble.isSome = true ∧ st.diagnosis.isSome = true ∧
        st.risk.isSome = true ∧ st.schedule.isSome = true ∧
        st.report.isSome = true) ∨
    (∃ reason st, Orchestrator.run ⟨none, none, none, [], none, none, none⟩
        (List.replicate 24 (.fin 1)) = .fatal reason st ∧ reason ≠ "") :=
  run_populates_all_slots_or_fatal ⟨none, none, none, [], none, none, none⟩
    (List.replicate 24 (.fin 1)) (by decide)

/-- C9: `componentLabel` agrees, on every input, with the normalization
described by the spec claim: null/undefined to "Unknown", the trimmed
digit codes and the case-insensitive prefixes to their labels, and any
other value to its trimmed form unchanged. -/
theorem componentLabel_eq_claim (value : Option String) :
    componentLabel value = componentLabelClaim value := by
  cases value with
  | none => rfl
  | some s =>
    simp only [componentLabel, componentLabelClaim]
    by_cases h0 : s.trim = "0"
    · rw [h0]
      decide
    · by_cases h1 : s.trim = "1"
      · rw [h1]
        decide
      · by_cases h2 : s.trim = "2"
        · rw [h2]
          decide
        · by_cases hH : ciStartsWith s.trim "Healthy" = true
          · simp [h0, h1, h2, hH]
          · by_cases hP : ciStartsWith s.trim "HPC" = true
            · simp [h0, h1, h2, hH, hP]
            · by_cases hF : ciStartsWith s.trim "Fan" = true
              · simp [h0, h1, h2, hH, hP, hF]
              · simp [h0, h1, h2, hH, hP, hF]

/-- C10: each analysis request first clears both previous results and
previous error; once the request settles, exactly one of the two is set:
on success the results hold the response and the error is null, on
failure the results are null and the error holds the server-provided
message or the fallback text. -/
theorem handleAnalyze_exclusive (α : Type) (st : DashboardState α)
    (outcome : Except (Option String) α) :
    ((handleAnalyzeStart st).results = none ∧
      (handleAnalyzeStart st).error = none) ∧
    (∀ d, outcome = .ok d →
      handleAnalyze st outcome = ⟨some d, false, none⟩) ∧
    (∀ e, outcome = .error e →
      handleAnalyze st outcome =
        ⟨none, false, some (jsOrString e "Failed to connect to the server.")⟩) ∧
    (((handleAnalyze st outcome).results.isSome = true ∧
        (handleAnalyze st outcome).error = none) ∨
      ((handleAnalyze st outcome).results = none ∧
        (handleAnalyze st outcome).error.isSome = true)) := by
  refine ⟨⟨rfl, rfl⟩, fun d hd => ?_, fun e he => ?_, ?_⟩
  · subst hd
    rfl
  · subst he
    rfl
  · cases outcome with
    | ok d => exact Or.inl ⟨rfl, rfl⟩
    | error e => exact Or.inr ⟨rfl, rfl⟩

theorem handleAnalyze_exclusive_witness :
    handleAnalyze (⟨some 1, false, some "stale"⟩ : DashboardState ℕ) (.ok 2)
      = ⟨some 2, false, none⟩ ∧
    handleAnalyze (⟨some 1, false, some "stale"⟩ : DashboardState ℕ)
      (.error (some "server says no"))
      = ⟨none, false,
          some (jsOrString (some "server says no")
            "Failed to connect to the server.")⟩ :=
  ⟨(handleAnalyze_exclusive ℕ ⟨some 1, false, some "stale"⟩ (.ok 2)).2.1 2 rfl,
   (handleAnalyze_exclusive ℕ ⟨some 1, false, some "stale"⟩
     (.error (some "server says no"))).2.2.1 (some "server says no") rfl⟩
